import Mathlib

/-!
# Verification of the Vortixia client-side behavior layer

Shallow embedding of the behavior layer of the Vortixia marketing site:
the `throttle` utility, session-first-visit check and navigation-overlay
synchronizer from `assets/js/performance-optimizer.js`, and the
reveal-animation engine (registrar and scheduler) plus the hero carousel
from `assets/js/script.js`.

DOM elements are identified by natural-number ids; each element's relevant
mutable state (its class list, `data-animate` dataset entry, and the
`--animation-delay` style property) is modelled explicitly.  Times and
animation delays are natural numbers (milliseconds, respectively hundredths
of a second).  Class lists are modelled as lists of strings with
set-semantics insertion, mirroring `DOMTokenList`.
-/

namespace Vortixia

/-! ## DOM class-list primitives

`classList.add` inserts only when absent; `classList.remove` deletes the
token; `classList.toggle(c, force)` dispatches on the force flag. -/

def addClass (c : String) (l : List String) : List String :=
  if c ∈ l then l else l ++ [c]

def removeClass (c : String) (l : List String) : List String :=
  l.filter (fun x => x ≠ c)

def toggleClass (c : String) (force : Bool) (l : List String) : List String :=
  if force then addClass c l else removeClass c l

/-- JS falsiness of a nullable string: `null` and the empty string are falsy. -/
def strFalsy : Option String → Bool
  | none => true
  | some s => s = ""

/-! ## The throttle utility (`performance-optimizer.js`, `throttle`)

```js
function throttle(func, limit) {
    let inThrottle;
    return function () {
        const args = arguments;
        const context = this;
        if (!inThrottle) {
            func.apply(context, args);
            inThrottle = true;
            setTimeout(() => (inThrottle = false), limit);
        }
    };
}
```

The closure state is the pending reset: `none` when `inThrottle` is unset
or the timer already fired, `some r` when `inThrottle` is set and the
`setTimeout` callback will clear it at absolute time `r`.  A call arriving
at time `t ≥ r` finds `inThrottle` already cleared.  `throttleRun` replays
a list of call times (in arrival order) and returns the times whose call
actually invoked the wrapped function. -/

def throttleRun (limit : Nat) : Option Nat → List Nat → List Nat
  | _, [] => []
  | none, t :: ts => t :: throttleRun limit (some (t + limit)) ts
  | some r, t :: ts =>
      if t < r then throttleRun limit (some r) ts
      else t :: throttleRun limit (some (t + limit)) ts

def throttleExec (limit : Nat) (calls : List Nat) : List Nat :=
  throttleRun limit none calls

/-! ## The reveal-animation engine (`script.js`, `VortixiaApp.animations`)

Mutable state of the `animations` object: the `animatedElements` set (kept
as an insertion-ordered duplicate-free list, as a JS `Set` iterates in
insertion order), the `pendingElements` queue, the `IntersectionObserver`
(`some obs` = an observer exists and currently observes the ids in `obs`,
`none` = `this.observer` is `null`), the reduced-motion media query value,
and whether `IntersectionObserver` is available on `window`.  The per-id
element store is a total function from ids to element states. -/

structure Elem where
  classes : List String
  animate : Option String
  delayProp : Option Nat
  deriving Repr, DecidableEq

def Elem.fresh : Elem := { classes := [], animate := none, delayProp := none }

structure AnimationsState where
  elems : Nat → Elem
  animatedElements : List Nat
  pendingElements : List Nat
  observer : Option (List Nat)
  reducedMotion : Bool
  supportsObserver : Bool

def updateElem (s : AnimationsState) (e : Nat) (f : Elem → Elem) : AnimationsState :=
  { s with elems := Function.update s.elems e (f (s.elems e)) }

/-- Source: `showElement(element) { element.classList.add('is-visible'); }` -/
def showElement (s : AnimationsState) (e : Nat) : AnimationsState :=
  updateElem s e (fun el => { el with classes := addClass "is-visible" el.classes })

/-- Source: `showAll() { this.animatedElements.forEach((el) => this.showElement(el)); }` -/
def showAll (s : AnimationsState) : AnimationsState :=
  s.animatedElements.foldl showElement s

/-- Source: `prepareElement(element, type = 'text', delay = 0)`:

```js
if (!element || this.animatedElements.has(element)) {
    if (element && delay) {
        element.style.setProperty('--animation-delay', `$\x7bdelay\x7ds`);
    }
    return;
}
const animationType = type || 'text';
if (!element.dataset.animate) {
    element.dataset.animate = animationType;
}
if (delay) {
    element.style.setProperty('--animation-delay', `$\x7bdelay\x7ds`);
}
this.animatedElements.add(element);
if (this.observer) {
    this.observer.observe(element);
} else {
    this.pendingElements.push(element);
}
```

Elements are always non-null here (ids); `delay` is in hundredths of a
second, so JS falsiness of the number is `delay = 0`. -/
def prepareElement (s : AnimationsState) (e : Nat) (ty : String) (delay : Nat) :
    AnimationsState :=
  if e ∈ s.animatedElements then
    if delay ≠ 0 then updateElem s e (fun el => { el with delayProp := some delay })
    else s
  else
    let animationType := if ty = "" then "text" else ty
    let s1 := if strFalsy (s.elems e).animate then
        updateElem s e (fun el => { el with animate := some animationType })
      else s
    let s2 := if delay ≠ 0 then
        updateElem s1 e (fun el => { el with delayProp := some delay })
      else s1
    let s3 := { s2 with animatedElements := s2.animatedElements ++ [e] }
    match s3.observer with
    | some obs => { s3 with observer := some (obs ++ [e]) }
    | none => { s3 with pendingElements := s3.pendingElements ++ [e] }

/-- Source: `registerPendingElements`: splice the pending queue and observe each. -/
def registerPendingElements (s : AnimationsState) : AnimationsState :=
  match s.observer with
  | none => s
  | some obs => { s with observer := some (obs ++ s.pendingElements), pendingElements := [] }

/-- Source: `setupIntersectionObserver`:

```js
const supportsObserver = 'IntersectionObserver' in window;
if (this.prefersReducedMotion.matches || !supportsObserver) {
    this.showAll();
    this.pendingElements = [];
    return;
}
this.observer = new IntersectionObserver(...);
this.registerPendingElements();
``` -/
def setupIntersectionObserver (s : AnimationsState) : AnimationsState :=
  if s.reducedMotion || !s.supportsObserver then
    let s1 := showAll s
    { s1 with pendingElements := [] }
  else
    registerPendingElements { s with observer := some [] }

/-- Source: `resetObserver`:

```js
if (this.observer) { this.observer.disconnect(); this.observer = null; }
this.animatedElements.forEach((element) => {
    element.classList.remove('is-visible');
});
this.pendingElements = Array.from(this.animatedElements);
this.setupIntersectionObserver();
``` -/
def resetObserver (s : AnimationsState) : AnimationsState :=
  let s1 := { s with observer := none }
  let s2 := s1.animatedElements.foldl
    (fun st e => updateElem st e
      (fun el => { el with classes := removeClass "is-visible" el.classes })) s1
  let s3 := { s2 with pendingElements := s2.animatedElements }
  setupIntersectionObserver s3

/-- One observer-callback entry: the observer only delivers entries for
targets it observes; an intersecting target is shown and unobserved. -/
def intersectEntry (s : AnimationsState) (e : Nat) (isIntersecting : Bool) :
    AnimationsState :=
  match s.observer with
  | none => s
  | some obs =>
      if e ∈ obs ∧ isIntersecting then
        let s1 := showElement s e
        { s1 with observer := some (obs.filter (fun x => x ≠ e)) }
      else s

/-- The `change` listener on the reduced-motion media query:

```js
this.prefersReducedMotion.addEventListener('change', (event) => {
    document.body.classList.toggle('reduced-motion', event.matches);
    if (event.matches) { this.showAll(); } else { this.resetObserver(); }
});
``` -/
def reducedMotionChange (s : AnimationsState) (m : Bool) : AnimationsState :=
  let s1 := { s with reducedMotion := m }
  if m then showAll s1 else resetObserver s1

/-- The events that can reach the animations state after initialization. -/
inductive AnimEvent where
  | intersect (e : Nat) (isIntersecting : Bool)
  | rmChange (m : Bool)
  | prepare (e : Nat) (ty : String) (delay : Nat)
  deriving Repr, DecidableEq

def stepAnim (s : AnimationsState) : AnimEvent → AnimationsState
  | .intersect e ii => intersectEntry s e ii
  | .rmChange m => reducedMotionChange s m
  | .prepare e ty d => prepareElement s e ty d

def isVisible (s : AnimationsState) (e : Nat) : Bool :=
  "is-visible" ∈ (s.elems e).classes

/-- The delay an element ends up with: the `--animation-delay` custom
property, defaulting to `0` when never set (the stylesheet default). -/
def delayOf (s : AnimationsState) (e : Nat) : Nat :=
  (s.elems e).delayProp.getD 0

/-! ## The element registrar (`script.js`, `prepareTextBlocks`,
`prepareCards`, `prepareImages`)

Each walks its matched node list with `forEach((element, index) => ...)`;
`prepareList` is that indexed traversal, `f` the per-index delay. -/

def prepareList (ty : String) (f : Nat → Nat) :
    AnimationsState → Nat → List Nat → AnimationsState
  | s, _, [] => s
  | s, k, e :: es => prepareList ty f (prepareElement s e ty (f k)) (k + 1) es

/-- Source: `prepareTextBlocks`: `this.prepareElement(element, 'text', (index % 5) * 0.05)`. -/
def prepareTextBlocks (s : AnimationsState) (matched : List Nat) : AnimationsState :=
  prepareList "text" (fun i => (i % 5) * 5) s 0 matched

/-- One group of `prepareCards`: `this.prepareElement(element, type, index * stagger)`. -/
def prepareCardGroup (s : AnimationsState) (matched : List Nat) (stagger : Nat) :
    AnimationsState :=
  prepareList "card" (fun i => i * stagger) s 0 matched

/-- Source: `prepareImages`: `this.prepareElement(image, 'image', Math.min(index * 0.02, 0.2))`
(the `loading` attribute assignment does not touch the registrar state). -/
def prepareImages (s : AnimationsState) (matched : List Nat) : AnimationsState :=
  prepareList "image" (fun i => min (i * 2) 20) s 0 matched

/-! ## Session-first-visit check (`performance-optimizer.js`, `isFirstSessionLoad`)

```js
const STORAGE_KEY = 'vortixia-visited';
const NAME_MARKER = '__vortixiaVisited__';
const markWithWindowName = () => {
    const isFirst = window.name !== NAME_MARKER;
    window.name = NAME_MARKER;
    return isFirst;
};
if (window.location && window.location.protocol === 'file:') {
    return markWithWindowName();
}
try {
    const isFirst = !sessionStorage.getItem(STORAGE_KEY);
    if (isFirst) { sessionStorage.setItem(STORAGE_KEY, 'true'); }
    return isFirst;
} catch (error) {
    return markWithWindowName();
}
```

`sessionVisited` is the value stored under `STORAGE_KEY` (`none` = absent);
`storageThrows` models storage access throwing (privacy mode). -/

def NAME_MARKER : String := "__vortixiaVisited__"

structure BrowserState where
  windowName : String
  sessionVisited : Option String
  protocolFile : Bool
  storageThrows : Bool
  deriving Repr, DecidableEq

def markWithWindowName (b : BrowserState) : Bool × BrowserState :=
  (b.windowName ≠ NAME_MARKER, { b with windowName := NAME_MARKER })

def isFirstSessionLoad (b : BrowserState) : Bool × BrowserState :=
  if b.protocolFile then markWithWindowName b
  else if b.storageThrows then markWithWindowName b
  else
    let isFirst := strFalsy b.sessionVisited
    if isFirst then (true, { b with sessionVisited := some "true" })
    else (false, b)

/-! ## Navigation overlay synchronizer (`performance-optimizer.js`,
`setupHamburgerMenu` / `syncOverlayState`)

```js
const syncOverlayState = () => {
    const isActive = mobileNavOverlay.classList.contains('active');
    hamburger.setAttribute('aria-expanded', String(isActive));
    mobileNavOverlay.setAttribute('aria-hidden', String(!isActive));
    document.body.style.overflow = isActive ? 'hidden' : '';
};
const observer = new MutationObserver(syncOverlayState);
observer.observe(mobileNavOverlay, { attributes: true, attributeFilter: ['class'] });
```

Any change to the overlay's class attribute triggers `syncOverlayState` as
the mutation-observer reaction; `classMutation` is one such change followed
by the reaction. -/

def boolStr (b : Bool) : String := if b then "true" else "false"

structure NavDom where
  overlayClasses : List String
  ariaExpanded : Option String
  ariaHidden : Option String
  bodyOverflow : String
  deriving Repr, DecidableEq

def overlayIsActive (d : NavDom) : Bool := "active" ∈ d.overlayClasses

def syncOverlayState (d : NavDom) : NavDom :=
  let isActive := overlayIsActive d
  { d with
      ariaExpanded := some (boolStr isActive)
      ariaHidden := some (boolStr (!isActive))
      bodyOverflow := if isActive then "hidden" else "" }

def classMutation (d : NavDom) (newOverlayClasses : List String) : NavDom :=
  syncOverlayState { d with overlayClasses := newOverlayClasses }

/-! ## The hero carousel (`script.js`, `setupCarousel`)

```js
function showSlide(index) {
    slides.forEach((slide, i) => slide.classList.toggle('active', i === index));
    dots.forEach((dot, i) => dot.classList.toggle('active', i === index));
}
function nextSlide() {
    currentSlide = (currentSlide + 1) % slides.length;
    showSlide(currentSlide);
}
```

Slides and dots are modelled by their class lists; `toggleActiveFrom` is
the indexed `forEach` starting at position `k`. -/

def toggleActiveFrom (idx : Nat) : Nat → List (List String) → List (List String)
  | _, [] => []
  | k, cls :: rest => toggleClass "active" (k = idx) cls :: toggleActiveFrom idx (k + 1) rest

def showSlide (slides dots : List (List String)) (index : Nat) :
    List (List String) × List (List String) :=
  (toggleActiveFrom index 0 slides, toggleActiveFrom index 0 dots)

def nextSlideIndex (current n : Nat) : Nat := (current + 1) % n

/-- Number of nodes in a list carrying the `active` class marker. -/
def countActive (l : List (List String)) : Nat :=
  l.countP (fun cls => decide ("active" ∈ cls))

/-! ## Concrete states used in witnesses and counterexamples -/

/-- A fresh animations state right after an observer was created, before
any element was registered. -/
def exFresh : AnimationsState :=
  { elems := fun _ => Elem.fresh
    animatedElements := []
    pendingElements := []
    observer := some []
    reducedMotion := false
    supportsObserver := true }

/-- Two elements (ids 0 and 1) registered and observed. -/
def exState : AnimationsState :=
  { exFresh with animatedElements := [0, 1], observer := some [0, 1] }

/-- Two elements registered while reduced motion is on and no observer
exists (the state `setupIntersectionObserver` runs from at init). -/
def exDegraded : AnimationsState :=
  { exFresh with
      animatedElements := [0, 1]
      pendingElements := [0, 1]
      observer := none
      reducedMotion := true }

/-- Twelve images (ids 0 through 11) registered by `prepareImages`. -/
def exImages : AnimationsState := prepareImages exFresh (List.range 12)

/-- A fresh http(s) browsing context: storage works, nothing stored yet. -/
def exWebBrowser : BrowserState :=
  { windowName := "", sessionVisited := none, protocolFile := false, storageThrows := false }

/-- A fresh `file:` browsing context, which takes the window-name fallback. -/
def exFileBrowser : BrowserState :=
  { windowName := "", sessionVisited := none, protocolFile := true, storageThrows := false }

/-! ## Helper lemmas: class lists -/

theorem mem_addClass_self (c : String) (l : List String) : c ∈ addClass c l := by
  unfold addClass
  by_cases h : c ∈ l
  · simp [h]
  · simp [h]

theorem mem_addClass_of_mem (c d : String) (l : List String) (h : d ∈ l) :
    d ∈ addClass c l := by
  unfold addClass
  by_cases hc : c ∈ l <;> simp [hc, h]

theorem not_mem_removeClass_self (c : String) (l : List String) :
    c ∉ removeClass c l := by
  unfold removeClass
  simp

theorem addClass_of_mem (c : String) (l : List String) (h : c ∈ l) :
    addClass c l = l := by
  unfold addClass
  simp [h]

theorem addClass_nodup (c : String) (l : List String) (h : l.Nodup) :
    (addClass c l).Nodup := by
  unfold addClass
  by_cases hc : c ∈ l
  · simpa [hc]
  · simp only [hc, if_false]
    simpa [List.nodup_append] using ⟨h, hc⟩

/-! ## Helper lemmas: throttle -/

/-- Calls strictly inside the window after the last execution are dropped
and leave the pending reset untouched. -/
theorem throttleRun_drop_append (limit t₀ : Nat) (ts rest : List Nat)
    (h : ∀ t ∈ ts, t < t₀ + limit) :
    throttleRun limit (some (t₀ + limit)) (ts ++ rest) =
      throttleRun limit (some (t₀ + limit)) rest := by
  induction ts with
  | nil => rfl
  | cons t ts ih =>
      have ht : t < t₀ + limit := h t (List.mem_cons_self t ts)
      simp only [List.cons_append, throttleRun, if_pos ht]
      exact ih (fun u hu => h u (List.mem_cons_of_mem t hu))

/-! ## Claim C4: leading-edge throttle semantics -/

/-- C4: for a throttle window `W`, the leading call of a burst executes
immediately, every later call arriving strictly within `W` of that
execution is dropped, and a call arriving once `W` has elapsed executes
again: the wrapped function is invoked exactly at the leading call and at
the post-window call. -/
theorem throttle_window_semantics (W t₀ u : Nat) (ts : List Nat)
    (hburst : ∀ t ∈ ts, t < t₀ + W) (hu : t₀ + W ≤ u) :
    throttleExec W (t₀ :: (ts ++ [u])) = [t₀, u] := by
  unfold throttleExec
  simp only [throttleRun]
  rw [throttleRun_drop_append W t₀ ts [u] hburst]
  simp only [throttleRun, if_neg (not_lt.mpr hu)]

/-- Witness for C4 at the spec's example: window 50, burst at 0 and 30,
then a call at 80; exactly the calls at 0 and 80 invoke the function. -/
theorem throttle_window_semantics_witness :
    (∀ t ∈ [30], t < 0 + 50) ∧ 0 + 50 ≤ 80 ∧
      throttleExec 50 (0 :: ([30] ++ [80])) = [0, 80] :=
  ⟨by decide, by decide, throttle_window_semantics 50 0 80 [30] (by decide) (by decide)⟩

/-! ## Claim C1: the throttle has no trailing edge

The source `throttle` never re-invokes the wrapped function when the window
elapses: a burst's final call arriving inside the window is dropped
outright, so the "trailing-edge guarantee" fails.  The repository's own
test (`throttle.test.js`) pins this down: calls at 0, 0, 30, 100 with
window 50 must produce invocations `[1, 4]` — the burst's final call
(value 3, at 30) is never processed. -/

/-- C1 counterexample: window 50, burst of calls at 0 and 30.  The final
call of the burst (at 30) is never processed: the complete run invokes the
wrapped function only for the call at 0. -/
theorem throttle_no_trailing_edge_cex :
    throttleExec 50 [0, 30] = [0] ∧ (30 : Nat) ∉ throttleExec 50 [0, 30] := by
  constructor
  · rfl
  · decide

/-- C1 amended: the throttle is leading-edge only.  For every burst whose
later calls all arrive strictly within the window of the leading
execution, only the leading call invokes the wrapped function; the
trailing calls of the burst are dropped and never processed. -/
theorem throttle_burst_drops_trailing (W t₀ : Nat) (ts : List Nat)
    (hburst : ∀ t ∈ ts, t < t₀ + W) :
    throttleExec W (t₀ :: ts) = [t₀] := by
  unfold throttleExec
  simp only [throttleRun]
  have h := throttleRun_drop_append W t₀ ts [] hburst
  simpa using h

/-- Witness for the amended C1: window 50, burst at 0, 10, 30; only the
call at 0 executes. -/
theorem throttle_burst_drops_trailing_witness :
    (∀ t ∈ [10, 30], t < 0 + 50) ∧ throttleExec 50 (0 :: [10, 30]) = [0] :=
  ⟨by decide, throttle_burst_drops_trailing 50 0 [10, 30] (by decide)⟩

/-! ## Helper lemmas: the reveal scheduler -/

theorem updateElem_elems_same (s : AnimationsState) (e : Nat) (f : Elem → Elem) :
    (updateElem s e f).elems e = f (s.elems e) := by
  simp [updateElem]

theorem updateElem_elems_ne (s : AnimationsState) (e : Nat) (f : Elem → Elem)
    (g : Nat) (hg : g ≠ e) : (updateElem s e f).elems g = s.elems g := by
  simp [updateElem, Function.update_noteq hg]

theorem isVisible_showElement_self (s : AnimationsState) (e : Nat) :
    isVisible (showElement s e) e = true := by
  simp [isVisible, showElement, updateElem, mem_addClass_self]

theorem isVisible_showElement_mono (s : AnimationsState) (e f : Nat)
    (h : isVisible s f = true) : isVisible (showElement s e) f = true := by
  by_cases hef : f = e
  · subst hef
    simp only [isVisible, showElement, updateElem, Function.update_same,
      decide_eq_true_eq] at h ⊢
    exact mem_addClass_of_mem _ _ _ h
  · simpa [isVisible, showElement, updateElem, Function.update_noteq hef] using h

theorem isVisible_foldl_showElement_mono (l : List Nat) (s : AnimationsState) (f : Nat)
    (h : isVisible s f = true) : isVisible (l.foldl showElement s) f = true := by
  induction l generalizing s with
  | nil => exact h
  | cons e es ih => exact ih _ (isVisible_showElement_mono s e f h)

theorem isVisible_foldl_showElement_mem (l : List Nat) (s : AnimationsState) (f : Nat)
    (hf : f ∈ l) : isVisible (l.foldl showElement s) f = true := by
  induction l generalizing s with
  | nil => cases hf
  | cons e es ih =>
      rcases List.mem_cons.mp hf with he | he
      · subst he
        exact isVisible_foldl_showElement_mono es _ f (isVisible_showElement_self s f)
      · exact ih _ he

theorem showElement_fields (s : AnimationsState) (e : Nat) :
    (showElement s e).animatedElements = s.animatedElements ∧
    (showElement s e).pendingElements = s.pendingElements ∧
    (showElement s e).observer = s.observer := by
  exact ⟨rfl, rfl, rfl⟩

theorem foldl_showElement_fields (l : List Nat) (s : AnimationsState) :
    ((l.foldl showElement s).animatedElements = s.animatedElements ∧
     (l.foldl showElement s).pendingElements = s.pendingElements ∧
     (l.foldl showElement s).observer = s.observer) := by
  induction l generalizing s with
  | nil => exact ⟨rfl, rfl, rfl⟩
  | cons e es ih => exact ih (showElement s e)

theorem isVisible_showAll_mem (s : AnimationsState) (f : Nat)
    (hf : f ∈ s.animatedElements) : isVisible (showAll s) f = true :=
  isVisible_foldl_showElement_mem _ s f hf

theorem isVisible_showAll_mono (s : AnimationsState) (f : Nat)
    (h : isVisible s f = true) : isVisible (showAll s) f = true :=
  isVisible_foldl_showElement_mono _ s f h

theorem prepareElement_elems_ne (s : AnimationsState) (e : Nat) (ty : String) (d : Nat)
    (f : Nat) (hf : f ≠ e) :
    (prepareElement s e ty d).elems f = s.elems f := by
  unfold prepareElement
  by_cases hmem : e ∈ s.animatedElements
  · rw [if_pos hmem]
    by_cases hd : d ≠ 0
    · rw [if_pos hd]; exact updateElem_elems_ne s e _ f hf
    · rw [if_neg hd]
  · rw [if_neg hmem]
    rcases hobs : s.observer with _ | obs <;>
      by_cases hfa : strFalsy (s.elems e).animate <;>
      by_cases hd : d ≠ 0 <;>
      simp [hobs, hfa, hd, updateElem, Function.update_noteq hf]

theorem prepareElement_classes_self (s : AnimationsState) (e : Nat) (ty : String)
    (d : Nat) : ((prepareElement s e ty d).elems e).classes = (s.elems e).classes := by
  unfold prepareElement
  by_cases hmem : e ∈ s.animatedElements
  · rw [if_pos hmem]
    by_cases hd : d ≠ 0
    · rw [if_pos hd]; simp [updateElem]
    · rw [if_neg hd]
  · rw [if_neg hmem]
    rcases hobs : s.observer with _ | obs <;>
      by_cases hfa : strFalsy (s.elems e).animate <;>
      by_cases hd : d ≠ 0 <;>
      simp [hobs, hfa, hd, updateElem]

theorem prepareElement_classes_any (s : AnimationsState) (e : Nat) (ty : String)
    (d : Nat) (f : Nat) :
    ((prepareElement s e ty d).elems f).classes = (s.elems f).classes := by
  by_cases hf : f = e
  · subst hf; exact prepareElement_classes_self s f ty d
  · rw [prepareElement_elems_ne s e ty d f hf]

/-! ## Claim C5: degraded mode reveals everything immediately -/

/-- C5: when reduced motion is active or `IntersectionObserver` is
unavailable, `setupIntersectionObserver` (called with no observer yet, as
at initialization) leaves every registered element visible, empties the
pending queue, and creates no observer. -/
theorem degraded_mode_reveals_all (s : AnimationsState)
    (hdeg : s.reducedMotion = true ∨ s.supportsObserver = false)
    (hobs : s.observer = none) :
    (∀ e ∈ (setupIntersectionObserver s).animatedElements,
        isVisible (setupIntersectionObserver s) e = true) ∧
    (setupIntersectionObserver s).pendingElements = [] ∧
    (setupIntersectionObserver s).observer = none := by
  have hcond : (s.reducedMotion || !s.supportsObserver) = true := by
    rcases hdeg with h | h <;> simp [h]
  unfold setupIntersectionObserver
  rw [if_pos hcond]
  refine ⟨?_, rfl, ?_⟩
  · intro e he
    have hanim : (showAll s).animatedElements = s.animatedElements :=
      (foldl_showElement_fields _ _).1
    have he' : e ∈ s.animatedElements := by
      simpa [hanim] using he
    have := isVisible_showAll_mem s e he'
    simpa [isVisible] using this
  · have : (showAll s).observer = s.observer := (foldl_showElement_fields _ _).2.2
    simpa [this] using hobs

/-- Witness for C5: the concrete degraded state with elements 0 and 1
registered; both end visible, the queue empties, no observer exists. -/
theorem degraded_mode_reveals_all_witness :
    (exDegraded.reducedMotion = true ∨ exDegraded.supportsObserver = false) ∧
    exDegraded.observer = none ∧
    isVisible (setupIntersectionObserver exDegraded) 0 = true ∧
    isVisible (setupIntersectionObserver exDegraded) 1 = true ∧
    (setupIntersectionObserver exDegraded).pendingElements = [] ∧
    (setupIntersectionObserver exDegraded).observer = none := by
  have h := degraded_mode_reveals_all exDegraded (Or.inl rfl) rfl
  exact ⟨Or.inl rfl, rfl, h.1 0 (by decide), h.1 1 (by decide), h.2.1, h.2.2⟩

/-! ## Claim C2: visibility is not monotonic under reduced-motion changes

`resetObserver` (run when the reduced-motion preference flips OFF) removes
`is-visible` from every registered element, so a visible element does
return to pending under that event.  This is the reset documented in the
spec's own scheduler section, but it falsifies the claim's "under every
sequence of events including reduced-motion preference changes". -/

/-- C2 counterexample: element 0 is revealed by an intersection entry, the
user turns reduced motion on, then off again; the reduced-motion-off
reaction (`resetObserver`) strips `is-visible`, so the once-visible element
is pending again. -/
theorem visible_reverts_on_reduced_motion_off_cex :
    isVisible (stepAnim exState (AnimEvent.intersect 0 true)) 0 = true ∧
    isVisible (stepAnim (stepAnim (stepAnim exState (AnimEvent.intersect 0 true))
        (AnimEvent.rmChange true)) (AnimEvent.rmChange false)) 0 = false := by
  constructor
  · decide
  · decide

/-- C2 amended: the pending-to-visible transition is one-way under every
event except the reduced-motion-off reset: any intersection entry, any
reduced-motion-ON change, and any re-registration preserve visibility;
only the `rmChange false` event (whose handler calls `resetObserver`) can
return a visible element to pending. -/
theorem visible_monotonic_except_reset (s : AnimationsState) (e : Nat) (ev : AnimEvent)
    (hvis : isVisible s e = true) (hev : ev ≠ AnimEvent.rmChange false) :
    isVisible (stepAnim s ev) e = true := by
  cases ev with
  | intersect e' ii =>
      show isVisible (intersectEntry s e' ii) e = true
      rcases hobs : s.observer with _ | obs
      · simpa [intersectEntry, hobs] using hvis
      · by_cases hc : e' ∈ obs ∧ ii = true
        · have := isVisible_showElement_mono s e' e hvis
          simpa [intersectEntry, hobs, hc, isVisible] using this
        · simpa [intersectEntry, hobs, hc] using hvis
  | rmChange m =>
      cases m with
      | false => exact absurd rfl hev
      | true =>
          show isVisible (reducedMotionChange s true) e = true
          unfold reducedMotionChange
          simp only [if_true]
          exact isVisible_showAll_mono _ e hvis
  | prepare e' ty d =>
      show isVisible (prepareElement s e' ty d) e = true
      simpa [isVisible, prepareElement_classes_any] using hvis

/-- Witness for the amended C2: the revealed element 0 stays visible when
reduced motion turns ON. -/
theorem visible_monotonic_except_reset_witness :
    isVisible (stepAnim (stepAnim exState (AnimEvent.intersect 0 true))
      (AnimEvent.rmChange true)) 0 = true :=
  visible_monotonic_except_reset _ 0 (AnimEvent.rmChange true) (by decide) (by decide)

/-! ## Claim C7: re-registration updates only the delay -/

/-- C7: `prepareElement` on an already-registered element is a no-op
except for the delay: the registration set, pending queue and observer are
untouched (so there is no second observation), the element's category
marker and class list are unchanged, every other element is unchanged, and
only the `--animation-delay` property is updated (and only when the new
delay is nonzero).  Since the category marker is never overwritten on a
registered element, the category of the first matching selector wins. -/
theorem prepareElement_reregistration (s : AnimationsState) (e : Nat) (ty : String)
    (d : Nat) (h : e ∈ s.animatedElements) :
    (prepareElement s e ty d).animatedElements = s.animatedElements ∧
    (prepareElement s e ty d).pendingElements = s.pendingElements ∧
    (prepareElement s e ty d).observer = s.observer ∧
    ((prepareElement s e ty d).elems e).classes = (s.elems e).classes ∧
    ((prepareElement s e ty d).elems e).animate = (s.elems e).animate ∧
    (∀ f, f ≠ e → (prepareElement s e ty d).elems f = s.elems f) ∧
    ((prepareElement s e ty d).elems e).delayProp =
      (if d = 0 then (s.elems e).delayProp else some d) := by
  unfold prepareElement
  rw [if_pos h]
  by_cases hd : d = 0
  · rw [if_neg (by simp [hd])]
    simp [hd]
  · rw [if_pos hd]
    refine ⟨rfl, rfl, rfl, by simp [updateElem], by simp [updateElem], ?_, ?_⟩
    · intro f hf
      exact updateElem_elems_ne s e _ f hf
    · simp [updateElem, hd]

/-- Witness for C7: re-registering element 0 of `exState` under a
different category with delay 7 updates only its delay. -/
theorem prepareElement_reregistration_witness :
    0 ∈ exState.animatedElements ∧
    (prepareElement exState 0 "card" 7).animatedElements = exState.animatedElements ∧
    (prepareElement exState 0 "card" 7).observer = exState.observer ∧
    ((prepareElement exState 0 "card" 7).elems 0).animate = (exState.elems 0).animate ∧
    (prepareElement exState 0 "card" 7).elems 5 = exState.elems 5 ∧
    ((prepareElement exState 0 "card" 7).elems 0).delayProp = some 7 := by
  have h := prepareElement_reregistration exState 0 "card" 7 (by decide)
  refine ⟨by decide, h.1, h.2.2.1, h.2.2.2.2.1, h.2.2.2.2.2.1 5 (by decide), ?_⟩
  simpa using h.2.2.2.2.2.2

/-! ## Claim C8: the reveal routine is idempotent -/

/-- C8: calling `showElement` twice on the same element leaves exactly the
state of the first call; assuming the element's class list is
duplicate-free (as a `DOMTokenList` always is), after the call the
`is-visible` class is present exactly once and the list is still
duplicate-free. -/
theorem showElement_idempotent (s : AnimationsState) (e : Nat)
    (h : ((s.elems e).classes).Nodup) :
    showElement (showElement s e) e = showElement s e ∧
    ((showElement s e).elems e).classes.count "is-visible" = 1 ∧
    ((showElement s e).elems e).classes.Nodup := by
  have hnd : ((showElement s e).elems e).classes.Nodup := by
    simpa [showElement, updateElem] using addClass_nodup "is-visible" _ h
  have hmem : "is-visible" ∈ ((showElement s e).elems e).classes := by
    simpa [showElement, updateElem] using
      mem_addClass_self "is-visible" (s.elems e).classes
  refine ⟨?_, List.count_eq_one_of_mem hnd hmem, hnd⟩
  unfold showElement updateElem
  simp only [Function.update_same]
  rw [addClass_of_mem _ _ (mem_addClass_self _ _), Function.update_idem]

/-- Witness for C8 on element 0 of `exState` (fresh, duplicate-free class
list): revealing twice equals revealing once and yields one `is-visible`. -/
theorem showElement_idempotent_witness :
    ((exState.elems 0).classes).Nodup ∧
    showElement (showElement exState 0) 0 = showElement exState 0 ∧
    ((showElement exState 0).elems 0).classes.count "is-visible" = 1 := by
  have h := showElement_idempotent exState 0 (by decide)
  exact ⟨by decide, h.1, h.2.1⟩

/-! ## Helper lemmas: the element registrar -/

theorem prepareElement_delayProp_fresh (s : AnimationsState) (e : Nat) (ty : String)
    (d : Nat) (h : e ∉ s.animatedElements) :
    ((prepareElement s e ty d).elems e).delayProp =
      (if d = 0 then (s.elems e).delayProp else some d) := by
  unfold prepareElement
  rw [if_neg h]
  rcases hobs : s.observer with _ | obs <;>
    by_cases hfa : strFalsy (s.elems e).animate <;>
    by_cases hd : d = 0 <;>
    simp [hobs, hfa, hd, updateElem]

theorem prepareElement_not_mem_animated (s : AnimationsState) (e : Nat) (ty : String)
    (d : Nat) (f : Nat) (hf : f ≠ e) (h : f ∉ s.animatedElements) :
    f ∉ (prepareElement s e ty d).animatedElements := by
  unfold prepareElement
  by_cases hmem : e ∈ s.animatedElements
  · rw [if_pos hmem]
    by_cases hd : d ≠ 0
    · rw [if_pos hd]; exact h
    · rw [if_neg hd]; exact h
  · rw [if_neg hmem]
    rcases hobs : s.observer with _ | obs <;>
      by_cases hfa : strFalsy (s.elems e).animate <;>
      by_cases hd : d ≠ 0 <;>
      simp [hobs, hfa, hd, updateElem, hf, h]

theorem prepareList_elems_not_mem (ty : String) (g : Nat → Nat) (es : List Nat) :
    ∀ (k : Nat) (s : AnimationsState) (e : Nat), e ∉ es →
      (prepareList ty g s k es).elems e = s.elems e := by
  induction es with
  | nil => intro k s e _; rfl
  | cons e' es ih =>
      intro k s e he
      have h1 : e ≠ e' := fun hEq => he (hEq ▸ List.mem_cons_self e' es)
      have h2 : e ∉ es := fun hm => he (List.mem_cons_of_mem e' hm)
      show (prepareList ty g (prepareElement s e' ty (g k)) (k + 1) es).elems e = s.elems e
      rw [ih (k + 1) _ e h2, prepareElement_elems_ne s e' ty (g k) e h1]

/-- Walking a duplicate-free list of unregistered, delay-free elements with
per-index delay `g` leaves the element at position `i` with the delay
property `g (k + i)` (unset when that delay is zero, as `prepareElement`
skips falsy delays). -/
theorem prepareList_delayProp (ty : String) (g : Nat → Nat) (es : List Nat) :
    ∀ (k : Nat) (s : AnimationsState), es.Nodup →
      (∀ e ∈ es, e ∉ s.animatedElements ∧ (s.elems e).delayProp = none) →
      ∀ i (hi : i < es.length),
        ((prepareList ty g s k es).elems (es.get ⟨i, hi⟩)).delayProp =
          (if g (k + i) = 0 then none else some (g (k + i))) := by
  induction es with
  | nil => intro k s _ _ i hi; exact absurd hi (by simp)
  | cons e es ih =>
      intro k s hnd hfresh i hi
      have hnotmem : e ∉ es := (List.nodup_cons.mp hnd).1
      have hndes : es.Nodup := (List.nodup_cons.mp hnd).2
      have hse := hfresh e (List.mem_cons_self e es)
      cases i with
      | zero =>
          show ((prepareList ty g (prepareElement s e ty (g k)) (k + 1) es).elems e).delayProp = _
          rw [prepareList_elems_not_mem ty g es (k + 1) _ e hnotmem,
            prepareElement_delayProp_fresh s e ty (g k) hse.1, hse.2]
          simp
      | succ j =>
          have hj : j < es.length := by simpa using hi
          show ((prepareList ty g (prepareElement s e ty (g k)) (k + 1) es).elems
            (es.get ⟨j, hj⟩)).delayProp = _
          have hfresh' : ∀ e' ∈ es,
              e' ∉ (prepareElement s e ty (g k)).animatedElements ∧
              ((prepareElement s e ty (g k)).elems e').delayProp = none := by
            intro e' he'
            have hne : e' ≠ e := fun hEq => hnotmem (hEq ▸ he')
            have h1 := hfresh e' (List.mem_cons_of_mem e he')
            exact ⟨prepareElement_not_mem_animated s e ty (g k) e' hne h1.1,
              by rw [prepareElement_elems_ne s e ty (g k) e' hne]; exact h1.2⟩
          rw [ih (k + 1) (prepareElement s e ty (g k)) hndes hfresh' j hj]
          have hk : k + (j + 1) = (k + 1) + j := by omega
          rw [hk]

/-! ## Claim C3: per-category delay formulas

Text blocks do follow the claimed formula with cycle length 5; card groups
use `index * stagger` with no modulus at all; images use the clamp
`min(index * 0.02, 0.2)`, which is not of the modular form once twelve or
more images are present. -/

/-- C3 counterexample: twelve images registered from a fresh state.  The
image delays are clamped (`min(index * 0.02, 0.2)`, i.e. `min (i * 2) 20`
hundredths), and no choice of `baseDelay`, `perIndexIncrement` and cycle
length `N` reproduces them: indices 0 and 1 force `baseDelay = 0` and
`perIndexIncrement = 2`, index 10 forces `N > 10`, and index 11 (delay 20,
where the formula would give 0 for `N = 11` or 22 for `N ≥ 12`) refutes
every remaining `N`. -/
theorem registrar_image_delay_not_modular_cex :
    ¬ ∃ (b inc N : Nat), 0 < N ∧
        ∀ i, i < 12 → delayOf exImages i = b + (i % N) * inc := by
  rintro ⟨b, inc, N, hN, h⟩
  have h0 := h 0 (by norm_num)
  have h1 := h 1 (by norm_num)
  have h10 := h 10 (by norm_num)
  have h11 := h 11 (by norm_num)
  rw [show delayOf exImages 0 = 0 from by decide] at h0
  rw [show delayOf exImages 1 = 2 from by decide] at h1
  rw [show delayOf exImages 10 = 20 from by decide] at h10
  rw [show delayOf exImages 11 = 20 from by decide] at h11
  rw [Nat.zero_mod] at h0
  have hb : b = 0 := by omega
  subst hb
  rcases Nat.lt_or_ge N 2 with hN2 | hN2
  · have hN1 : N = 1 := by omega
    subst hN1
    simp at h1
  · have e1 : 1 % N = 1 := Nat.mod_eq_of_lt (by omega)
    rw [e1, one_mul] at h1
    have hinc : inc = 2 := by omega
    subst hinc
    have hlt : 10 % N < N := Nat.mod_lt _ (by omega)
    rcases Nat.lt_or_ge 10 N with hN10 | hN10
    · rcases Nat.lt_or_ge N 12 with hN12 | hN12
      · have hN11 : N = 11 := by omega
        subst hN11
        norm_num at h11
      · have e11 : 11 % N = 11 := Nat.mod_eq_of_lt (by omega)
        rw [e11] at h11
        omega
    · omega

/-- C3 amended: for any duplicate-free matched list of unregistered,
delay-free elements, the element at position `i` receives: delay
`(i mod 5) * 0.05` for text blocks (the claimed formula, base 0, cycle
length 5); delay `i * stagger` for a card group (no modulus — equivalently
the claimed formula only with a cycle length exceeding every index); and
delay `min(i * 0.02, 0.2)` for images (a clamp, not a modulus).  Delays in
hundredths of a second. -/
theorem registrar_delay_formulas (s : AnimationsState) (matched : List Nat)
    (hnd : matched.Nodup)
    (hfresh : ∀ e ∈ matched, e ∉ s.animatedElements ∧ (s.elems e).delayProp = none) :
    (∀ i (hi : i < matched.length),
        delayOf (prepareTextBlocks s matched) (matched.get ⟨i, hi⟩) = (i % 5) * 5) ∧
    (∀ stagger, ∀ i (hi : i < matched.length),
        delayOf (prepareCardGroup s matched stagger) (matched.get ⟨i, hi⟩) = i * stagger) ∧
    (∀ i (hi : i < matched.length),
        delayOf (prepareImages s matched) (matched.get ⟨i, hi⟩) = min (i * 2) 20) := by
  have getDlem : ∀ v : Nat, ((if v = 0 then none else some v).getD 0) = v := by
    intro v
    rcases eq_or_ne v 0 with h | h <;> simp [h]
  refine ⟨?_, ?_, ?_⟩
  · intro i hi
    have h := prepareList_delayProp "text" (fun j => (j % 5) * 5) matched 0 s hnd hfresh i hi
    unfold delayOf prepareTextBlocks
    rw [h, getDlem]
    simp
  · intro stagger i hi
    have h := prepareList_delayProp "card" (fun j => j * stagger) matched 0 s hnd hfresh i hi
    unfold delayOf prepareCardGroup
    rw [h, getDlem]
    simp
  · intro i hi
    have h := prepareList_delayProp "image" (fun j => min (j * 2) 20) matched 0 s hnd hfresh i hi
    unfold delayOf prepareImages
    rw [h, getDlem]
    simp

/-- Witness for the amended C3: six fresh elements 10..15; position 5 gets
text delay `(5 mod 5) * 5 = 0`, card delay `5 * 8 = 40` (stagger 0.08),
and image delay `min(5 * 2, 20) = 10`. -/
theorem registrar_delay_formulas_witness :
    ([10, 11, 12, 13, 14, 15] : List Nat).Nodup ∧
    delayOf (prepareTextBlocks exFresh [10, 11, 12, 13, 14, 15]) 15 = 0 ∧
    delayOf (prepareCardGroup exFresh [10, 11, 12, 13, 14, 15] 8) 15 = 40 ∧
    delayOf (prepareImages exFresh [10, 11, 12, 13, 14, 15]) 15 = 10 := by
  have h := registrar_delay_formulas exFresh [10, 11, 12, 13, 14, 15] (by decide)
    (fun e _ => ⟨by simp [exFresh], rfl⟩)
  exact ⟨by decide, by simpa using h.1 5 (by norm_num),
    by simpa using h.2.1 8 5 (by norm_num), by simpa using h.2.2 5 (by norm_num)⟩

/-! ## Claim C6: first visit per session -/

/-- When the protocol is `file:` or storage throws, `isFirstSessionLoad`
takes the window-name fallback. -/
theorem isFirstSessionLoad_fallback (b : BrowserState)
    (hd : b.protocolFile = true ∨ b.storageThrows = true) :
    isFirstSessionLoad b = markWithWindowName b := by
  rcases hd with h | h
  · simp [isFirstSessionLoad, h]
  · cases hpf : b.protocolFile <;> simp [isFirstSessionLoad, hpf, h]

/-- C6: the session-first-visit check returns `true` on the first call of
a session and `false` on every later call, on both paths.  Storage path
(no `file:` protocol, storage available, key unset): the first call
returns `true` and stamps the key, the second returns `false` and leaves
the state fixed (so every subsequent call returns `false`), and clearing
the storage (a new session) makes it return `true` again.  Fallback path
(`file:` protocol or throwing storage, window name not yet the fixed
marker): the first call returns `true` and stamps the marker onto the
window name, the second returns `false` with the state fixed, and a fresh
window name (new session) makes it return `true` again. -/
theorem isFirstSessionLoad_per_session (b : BrowserState) :
    (b.protocolFile = false → b.storageThrows = false → b.sessionVisited = none →
      (isFirstSessionLoad b).1 = true ∧
      (isFirstSessionLoad (isFirstSessionLoad b).2).1 = false ∧
      (isFirstSessionLoad (isFirstSessionLoad b).2).2 = (isFirstSessionLoad b).2 ∧
      (isFirstSessionLoad
        { (isFirstSessionLoad b).2 with sessionVisited := none }).1 = true) ∧
    ((b.protocolFile = true ∨ b.storageThrows = true) → b.windowName ≠ NAME_MARKER →
      (isFirstSessionLoad b).1 = true ∧
      (isFirstSessionLoad (isFirstSessionLoad b).2).1 = false ∧
      (isFirstSessionLoad (isFirstSessionLoad b).2).2 = (isFirstSessionLoad b).2 ∧
      (isFirstSessionLoad
        { (isFirstSessionLoad b).2 with windowName := "" }).1 = true) := by
  constructor
  · intro hp ht hs
    simp [isFirstSessionLoad, hp, ht, hs, strFalsy]
  · intro hd hw
    obtain ⟨wn, sv, pf, st⟩ := b
    simp only [ne_eq, NAME_MARKER] at hw
    rcases hd with h | h <;> subst h
    · simp [isFirstSessionLoad, markWithWindowName, hw, NAME_MARKER]
    · cases pf <;> simp [isFirstSessionLoad, markWithWindowName, hw, NAME_MARKER]

/-- Witness for C6: a fresh web context (storage path) and a fresh `file:`
context (fallback path); both answer `true` then `false`. -/
theorem isFirstSessionLoad_per_session_witness :
    (isFirstSessionLoad exWebBrowser).1 = true ∧
    (isFirstSessionLoad (isFirstSessionLoad exWebBrowser).2).1 = false ∧
    (isFirstSessionLoad exFileBrowser).1 = true ∧
    (isFirstSessionLoad (isFirstSessionLoad exFileBrowser).2).1 = false := by
  have h1 := (isFirstSessionLoad_per_session exWebBrowser).1 rfl rfl rfl
  have h2 := (isFirstSessionLoad_per_session exFileBrowser).2 (Or.inl rfl) (by decide)
  exact ⟨h1.1, h1.2.1, h2.1, h2.2.1⟩

/-! ## Claim C9: overlay accessibility attributes stay in sync -/

/-- C9: after any change of the overlay's class list followed by the
mutation-observer reaction (`syncOverlayState`), the hamburger's
`aria-expanded` attribute equals the overlay's open boolean, the overlay's
`aria-hidden` attribute equals its negation, and the body scroll lock is
on exactly when the overlay is open; the reaction does not change the
class list itself, so both attributes agree with the overlay's actual
open/closed state. -/
theorem syncOverlayState_agrees (d : NavDom) (newClasses : List String) :
    (classMutation d newClasses).ariaExpanded =
      some (boolStr (overlayIsActive (classMutation d newClasses))) ∧
    (classMutation d newClasses).ariaHidden =
      some (boolStr (!overlayIsActive (classMutation d newClasses))) ∧
    ((classMutation d newClasses).bodyOverflow = "hidden" ↔
      overlayIsActive (classMutation d newClasses) = true) ∧
    (classMutation d newClasses).overlayClasses = newClasses := by
  unfold classMutation syncOverlayState overlayIsActive
  refine ⟨rfl, rfl, ?_, rfl⟩
  by_cases h : "active" ∈ newClasses <;>
    simp [h, (by decide : ("" : String) ≠ "hidden")]

/-! ## Claim C10: carousel index stays in range, one active slide -/

theorem toggleActiveFrom_length (idx : Nat) (l : List (List String)) :
    ∀ k : Nat, (toggleActiveFrom idx k l).length = l.length := by
  induction l with
  | nil => intro k; rfl
  | cons c rest ih =>
      intro k
      show (toggleClass "active" (decide (k = idx)) c ::
        toggleActiveFrom idx (k + 1) rest).length = _
      simp [ih (k + 1)]

theorem countActive_toggleActiveFrom (idx : Nat) (l : List (List String)) :
    ∀ k : Nat, countActive (toggleActiveFrom idx k l) =
      if k ≤ idx ∧ idx < k + l.length then 1 else 0 := by
  induction l with
  | nil =>
      intro k
      simp only [toggleActiveFrom, countActive, List.countP_nil, List.length_nil]
      split <;> omega
  | cons c rest ih =>
      intro k
      have hhead : (decide ("active" ∈ toggleClass "active" (decide (k = idx)) c)) =
          decide (k = idx) := by
        by_cases hk : k = idx
        · simp [hk, toggleClass, mem_addClass_self]
        · simp [hk, toggleClass, not_mem_removeClass_self]
      show countActive (toggleClass "active" (decide (k = idx)) c ::
        toggleActiveFrom idx (k + 1) rest) = _
      unfold countActive
      rw [List.countP_cons]
      have ihk := ih (k + 1)
      unfold countActive at ihk
      rw [ihk, hhead]
      simp only [List.length_cons, decide_eq_true_eq]
      split_ifs <;> omega

theorem toggleActiveFrom_get (idx : Nat) (l : List (List String)) :
    ∀ (k i : Nat) (hi : i < l.length) (hi2 : i < (toggleActiveFrom idx k l).length),
      (toggleActiveFrom idx k l).get ⟨i, hi2⟩ =
        toggleClass "active" (decide (k + i = idx)) (l.get ⟨i, hi⟩) := by
  induction l with
  | nil => intro k i hi _; exact absurd hi (by simp)
  | cons c rest ih =>
      intro k i hi hi2
      cases i with
      | zero => simp [toggleActiveFrom]
      | succ j =>
          have hj : j < rest.length := by simpa using hi
          have hjk : k + (j + 1) = (k + 1) + j := by omega
          have hj2 : j < (toggleActiveFrom idx (k + 1) rest).length := by
            rw [toggleActiveFrom_length]; exact hj
          show (toggleActiveFrom idx (k + 1) rest).get ⟨j, hj2⟩ = _
          rw [ih (k + 1) j hj hj2, hjk]
          rfl

/-- C10: for a non-empty slide list, `nextSlide`'s new index
`(current + 1) % slides.length` is again in range, and after
`showSlide(i)` with `i < slides.length` exactly one slide — the `i`-th —
carries the `active` marker and at most one dot does. -/
theorem carousel_active_invariant (slides dots : List (List String)) (i : Nat)
    (hi : i < slides.length) :
    nextSlideIndex i slides.length < slides.length ∧
    countActive (showSlide slides dots i).1 = 1 ∧
    (∀ hlen : i < (showSlide slides dots i).1.length,
      "active" ∈ (showSlide slides dots i).1.get ⟨i, hlen⟩) ∧
    countActive (showSlide slides dots i).2 ≤ 1 := by
  have hn : 0 < slides.length := lt_of_le_of_lt (Nat.zero_le i) hi
  refine ⟨Nat.mod_lt _ hn, ?_, ?_, ?_⟩
  · show countActive (toggleActiveFrom i 0 slides) = 1
    rw [countActive_toggleActiveFrom]
    rw [if_pos ⟨Nat.zero_le i, by simpa using hi⟩]
  · intro hlen
    have hget := toggleActiveFrom_get i slides 0 i hi hlen
    show "active" ∈ (toggleActiveFrom i 0 slides).get ⟨i, hlen⟩
    rw [hget]
    have hd : (decide (0 + i = i)) = true := by simp
    rw [hd]
    show "active" ∈ addClass "active" (slides.get ⟨i, hi⟩)
    exact mem_addClass_self _ _
  · show countActive (toggleActiveFrom i 0 dots) ≤ 1
    rw [countActive_toggleActiveFrom]
    split <;> omega

/-- Witness for C10 on a concrete two-slide, two-dot carousel at index 1. -/
theorem carousel_active_invariant_witness :
    (1 < ([["hero-slide"], ["hero-slide"]] : List (List String)).length) ∧
    nextSlideIndex 1 2 < 2 ∧
    countActive (showSlide [["hero-slide"], ["hero-slide"]] [[], []] 1).1 = 1 ∧
    countActive (showSlide [["hero-slide"], ["hero-slide"]] [[], []] 1).2 ≤ 1 := by
  have h := carousel_active_invariant [["hero-slide"], ["hero-slide"]] [[], []] 1
    (by norm_num)
  exact ⟨by norm_num, h.1, h.2.1, h.2.2.2⟩

end Vortixia
